import Mathlib

/-!
Verification development for `Hybrid_MPSO_CNN.py`, a two-level (macro/micro)
particle-swarm optimizer for CNN hyper-parameters.

Modelling conventions:

* Python floats are modelled as exact rationals (every IEEE double is a
  rational number; float rounding is not modelled).  The fitness fields,
  which the source initializes with `float('inf')` / `-float("inf")`,
  are modelled by `PyFloat` (a rational or one of the two infinities),
  with Python comparison `pyLt`.
* Python lists are mutable objects.  The integer hyper-parameter lists
  (`pos_i` / `pos_ij` and the `pbest_i` / `pbest_ij` / `gbest` names that
  the source binds to them by reference assignment) live in an explicit
  heap `Heap := List (List ℤ)` addressed by allocation index, so that
  reference assignment (`self.pbest_i = self.pos_i`, lines 22/24/62/64,
  126/129/145/148) and in-place element mutation
  (`self.pos_i[i] += self.vel_i[i]`, lines 39/79) are modelled faithfully.
  Velocity lists are never bound to any second name in the source, so they
  are stored inline in the particle record.
* `random.randint` / `random.randrange` draws made at particle construction
  are explicit inputs (`L1Draw` / `L2Draw`) constrained by `valid`
  predicates that encode exactly the ranges the source passes to the
  random functions; `random.uniform(0,1)` draws made in `update_velocity`
  come from an explicit stream `Rng` consumed two values per call.
* The external fitness evaluation (`CNN(...)`, `buid_model`, `train_model`,
  `evaluate`, all delegating to keras) is an oracle parameter `Oracle`:
  it receives the macro position contents, the micro position contents and
  the index of the evaluation call, and returns the accuracy as a rational.
* The inertia weight `w = calculate_omega(t, max_iter_lvl1)` (line 121) is
  a float computed from the exponential; the optimization loop is
  parameterized by the rational value `wSeq t` that this float computation
  produced (IEEE doubles are rationals), while `calculate_omega` itself is
  embedded separately over ℝ for the scheduler claims.
-/

namespace MPSO

/-- Python float values used for the fitness bookkeeping: finite values
(rationals) together with the two infinities `-float("inf")` and
`float('inf')` that the source uses as initial fitness values. -/
inductive PyFloat where
  | ninf : PyFloat
  | val : ℚ → PyFloat
  | pinf : PyFloat
deriving DecidableEq

/-- Python `<` on `PyFloat` (IEEE order on non-NaN values):
`-inf` is below everything else, `+inf` above everything else,
no value is below itself. -/
def pyLt : PyFloat → PyFloat → Bool
  | .ninf, .ninf => false
  | .ninf, _ => true
  | .val _, .ninf => false
  | .val a, .val b => decide (a < b)
  | .val _, .pinf => true
  | .pinf, _ => false

/-- Python `<=` on `PyFloat` (IEEE order on non-NaN values). -/
def pyLe : PyFloat → PyFloat → Bool
  | .ninf, _ => true
  | .val _, .ninf => false
  | .val a, .val b => decide (a ≤ b)
  | .val _, .pinf => true
  | .pinf, .pinf => true
  | .pinf, _ => false

/-- Keys of the `search_space` dictionary (`Hybrid_MPSO_CNN.__init__`,
lines 92–104). -/
inductive HP where
  | nC | nP | nF | c_nf | c_fs | c_pp | c_ss | p_fs | p_ss | p_pp | op
deriving DecidableEq

/-- The `search_space` dictionary of `Hybrid_MPSO_CNN.__init__`
(lines 92–104): the `[min, max]` range for every hyper-parameter. -/
def search_space : HP → ℤ × ℤ
  | .nC => (1, 5)
  | .nP => (1, 5)
  | .nF => (1, 5)
  | .c_nf => (1, 64)
  | .c_fs => (1, 13)
  | .c_pp => (0, 1)
  | .c_ss => (1, 5)
  | .p_fs => (1, 13)
  | .p_ss => (1, 5)
  | .p_pp => (0, 1)
  | .op => (1, 1024)

/-- The random draws consumed by `Particle_L2.__init__` (lines 48–55),
one per attribute. -/
structure L2Draw where
  c_nf : ℤ
  c_fs : ℤ
  c_pp : ℤ
  c_ss : ℤ
  p_fs : ℤ
  p_ss : ℤ
  p_pp : ℤ
  op : ℤ
deriving DecidableEq

/-- The exact ranges from which `Particle_L2.__init__` draws its
attributes (lines 48–55): `randint(a, b)` yields an integer in `[a, b]`;
`randrange(a, b+1, 2)` with odd `a` yields an odd integer in `[a, b]`.
Note that the source draws `c_ss` from `randint(search_space['c_ss'][0],
self.c_fs)` (line 51) and `p_pp` from `randint(search_space['p_pp'][0],
self.p_fs)` (line 54): the upper bounds are the already-drawn filter
sizes, not the table entries. -/
def L2Draw.valid (d : L2Draw) : Prop :=
  (search_space .c_nf).1 ≤ d.c_nf ∧ d.c_nf ≤ (search_space .c_nf).2 ∧
  (search_space .c_fs).1 ≤ d.c_fs ∧ d.c_fs ≤ (search_space .c_fs).2 ∧ d.c_fs % 2 = 1 ∧
  (search_space .c_pp).1 ≤ d.c_pp ∧ d.c_pp ≤ (search_space .c_pp).2 ∧
  (search_space .c_ss).1 ≤ d.c_ss ∧ d.c_ss ≤ d.c_fs ∧
  (search_space .p_fs).1 ≤ d.p_fs ∧ d.p_fs ≤ (search_space .p_fs).2 ∧ d.p_fs % 2 = 1 ∧
  (search_space .p_ss).1 ≤ d.p_ss ∧ d.p_ss ≤ (search_space .p_ss).2 ∧
  (search_space .p_pp).1 ≤ d.p_pp ∧ d.p_pp ≤ d.p_fs ∧
  (search_space .op).1 ≤ d.op ∧ d.op ≤ (search_space .op).2

instance (d : L2Draw) : Decidable d.valid := by
  unfold L2Draw.valid; infer_instance

/-- The random draws consumed by `Particle_L1.__init__` (lines 15–17),
together with the draw suppliers of the micro particles it constructs
(line 29). -/
structure L1Draw where
  nC : ℤ
  nP : ℤ
  nF : ℤ
  micro : ℕ → L2Draw

/-- The exact ranges from which `Particle_L1.__init__` draws its
attributes (lines 15–17): `nC = randint(1, 5)`, `nP = randint(1, nC)`,
`nF = randint(1, nC)`. -/
def L1Draw.valid (d : L1Draw) : Prop :=
  (search_space .nC).1 ≤ d.nC ∧ d.nC ≤ (search_space .nC).2 ∧
  (search_space .nP).1 ≤ d.nP ∧ d.nP ≤ d.nC ∧
  (search_space .nF).1 ≤ d.nF ∧ d.nF ≤ d.nC ∧
  ∀ k, (d.micro k).valid

/-- The heap of integer-list objects: `pos_i` / `pos_ij` lists addressed
by allocation index.  `pbest` and `gbest` fields of a particle are
references (indices) into this heap, exactly as the Python names are
references to list objects. -/
abbrev Heap := List (List ℤ)

/-- State of a `Particle_L2` instance (lines 46–66).  `posRef`,
`pbestRef`, `gbestRef` are heap references standing for the list objects
bound to `pos_ij`, `pbest_ij`, `gbest`. -/
structure Particle_L2 where
  posRef : ℕ
  vel : List ℚ
  pbestRef : ℕ
  pbest_F : PyFloat
  gbestRef : ℕ
  gbest_F : PyFloat
  F : PyFloat
deriving DecidableEq

/-- State of a `Particle_L1` instance (lines 13–29), including its owned
micro swarm `swarm_lvl2`. -/
structure Particle_L1 where
  nC : ℤ
  nP : ℤ
  nF : ℤ
  posRef : ℕ
  vel : List ℚ
  pbestRef : ℕ
  pbest_F : PyFloat
  gbestRef : ℕ
  gbest_F : PyFloat
  F : PyFloat
  swarm2 : List Particle_L2
deriving DecidableEq

/-- Default `Particle_L2`, used only as the default of total list
lookups (`List.getD` / `List.getLastD`); never reachable in a real
configuration, whose swarms are non-empty. -/
def defaultP2 : Particle_L2 :=
  ⟨0, [], 0, .ninf, 0, .pinf, .ninf⟩

/-- Default `Particle_L1` for total list lookups. -/
def defaultP1 : Particle_L1 :=
  ⟨0, 0, 0, 0, [], 0, .ninf, 0, .pinf, .ninf, []⟩

/-- `Particle_L2.__init__` (lines 47–66): allocates the `pos_ij` list
`[c_nf, c_fs, c_pp, c_ss, p_fs, p_ss, p_pp, op]` (line 57), a zero
velocity of the same length (line 60), binds `pbest_ij` and `gbest` to
the same list object as `pos_ij` (lines 62, 64), and initializes
`pbest_ij_F = -float("inf")` (line 63), `gbest_F = float('inf')`
(line 65), `F_ij = -float("inf")` (line 66). -/
def Particle_L2.init (h : Heap) (d : L2Draw) : Heap × Particle_L2 :=
  let pos : List ℤ := [d.c_nf, d.c_fs, d.c_pp, d.c_ss, d.p_fs, d.p_ss, d.p_pp, d.op]
  (h ++ [pos],
   { posRef := h.length
     vel := List.replicate 8 0
     pbestRef := h.length
     pbest_F := .ninf
     gbestRef := h.length
     gbest_F := .pinf
     F := .ninf })

/-- Construction of the micro swarm `swarm_lvl2` (line 29): `n` fresh
`Particle_L2` instances in order, threading the heap; `i` is the index of
the next draw supplier to use. -/
def buildSwarm2 (ds : ℕ → L2Draw) : Heap → ℕ → ℕ → Heap × List Particle_L2
  | h, _, 0 => (h, [])
  | h, i, n + 1 =>
      let hp := Particle_L2.init h (ds i)
      let rest := buildSwarm2 ds hp.1 (i + 1) n
      (rest.1, hp.2 :: rest.2)

/-- `Particle_L1.__init__` (lines 14–29): draws `nC`, `nP`, `nF`,
allocates `pos_i = [nC, nP, nF]` (line 19) and zero velocity (line 20),
binds `pbest_i` and `gbest` to the `pos_i` object (lines 22, 24),
initializes `pbest_i_F = -float("inf")` (line 23), `gbest_F =
float('inf')` (line 25), `F_i = -float("inf")` (line 26), and constructs
a micro swarm of `5 * nC` particles (lines 28–29). -/
def Particle_L1.init (h : Heap) (d : L1Draw) : Heap × Particle_L1 :=
  let pos : List ℤ := [d.nC, d.nP, d.nF]
  let ref := h.length
  let sw := buildSwarm2 d.micro (h ++ [pos]) 0 (5 * d.nC).toNat
  (sw.1,
   { nC := d.nC
     nP := d.nP
     nF := d.nF
     posRef := ref
     vel := [0, 0, 0]
     pbestRef := ref
     pbest_F := .ninf
     gbestRef := ref
     gbest_F := .pinf
     F := .ninf
     swarm2 := sw.2 })

/-- `swarm_size_lvl1 = 5` (line 105). -/
def swarm_size_lvl1 : ℕ := 5

/-- `max_iter_lvl2 = 5` (line 91). -/
def max_iter_lvl2 : ℕ := 5

/-- The coefficient `c1 = 2` (line 88). -/
def coeff_c1 : ℚ := 2

/-- The coefficient `c2 = 2` (line 89). -/
def coeff_c2 : ℚ := 2

/-- Construction of the macro swarm `swarm_lvl1` (line 106): 5 fresh
`Particle_L1` instances in order, threading the heap. -/
def buildSwarm1 (ds : ℕ → L1Draw) : Heap → ℕ → ℕ → Heap × List Particle_L1
  | h, _, 0 => (h, [])
  | h, i, n + 1 =>
      let hp := Particle_L1.init h (ds i)
      let rest := buildSwarm1 ds hp.1 (i + 1) n
      (rest.1, hp.2 :: rest.2)

/-- `Hybrid_MPSO_CNN.__init__` (line 106): builds the macro swarm of
`swarm_size_lvl1 = 5` particles on an empty heap. -/
def initOptimizer (ds : ℕ → L1Draw) : Heap × List Particle_L1 :=
  buildSwarm1 ds [] 0 swarm_size_lvl1

/-- Python `int()` applied to a float: truncation toward zero.  For a
rational in lowest terms this is truncated division of numerator by
denominator. -/
def ratTrunc (q : ℚ) : ℤ := q.num.tdiv q.den

/-- The velocity recurrence shared by `Particle_L1.update_velocity`
(lines 34–35) and `Particle_L2.update_velocity` (lines 74–75):
`vel[i] = w*vel[i] + c1*r1*(pbest[i] - pos[i]) + c2*r2*(gbest[i] - pos[i])`
for `i in range(len(vel))`.  In the source `pbest`, `pos` and `gbest` are
always lists of equal length; out-of-range lookups (which would raise
`IndexError` in Python) default to 0. -/
def velStep (w c1 c2 r1 r2 : ℚ) (vel : List ℚ) (pb pos gb : List ℤ) : List ℚ :=
  (List.range vel.length).map fun i =>
    w * vel.getD i 0 + c1 * r1 * ((pb.getD i 0 : ℚ) - (pos.getD i 0 : ℚ))
      + c2 * r2 * ((gb.getD i 0 : ℚ) - (pos.getD i 0 : ℚ))

/-- The position recurrence shared by `Particle_L1.update_position`
(lines 38–40) and `Particle_L2.update_position` (lines 78–80):
`pos[i] = int(pos[i] + vel[i])` for every index.  The bound clamp that
would follow is commented out in the source (lines 41, 81), so no repair
is applied. -/
def posStep (pos : List ℤ) (vel : List ℚ) : List ℤ :=
  (List.range pos.length).map fun i =>
    ratTrunc ((pos.getD i 0 : ℤ) + vel.getD i 0)

/-- `Particle_L2.update_velocity` (lines 71–75), with the two
`random.uniform(0,1)` draws `r1`, `r2` passed explicitly and the list
objects named `pbest_ij`, `pos_ij`, `gbest` read from the heap. -/
def Particle_L2.update_velocity (w c1 c2 r1 r2 : ℚ) (h : Heap) (p : Particle_L2) :
    Particle_L2 :=
  { p with
    vel := velStep w c1 c2 r1 r2 p.vel (h.getD p.pbestRef []) (h.getD p.posRef [])
        (h.getD p.gbestRef []) }

/-- `Particle_L2.update_position` (lines 77–81): mutates the `pos_ij`
list object in place, i.e. overwrites the heap cell `posRef`. -/
def Particle_L2.update_position (h : Heap) (p : Particle_L2) : Heap :=
  h.set p.posRef (posStep (h.getD p.posRef []) p.vel)

/-- `Particle_L1.update_velocity` (lines 31–35). -/
def Particle_L1.update_velocity (w c1 c2 r1 r2 : ℚ) (h : Heap) (p : Particle_L1) :
    Particle_L1 :=
  { p with
    vel := velStep w c1 c2 r1 r2 p.vel (h.getD p.pbestRef []) (h.getD p.posRef [])
        (h.getD p.gbestRef []) }

/-- `Particle_L1.update_position` (lines 37–41): mutates the `pos_i`
list object in place. -/
def Particle_L1.update_position (h : Heap) (p : Particle_L1) : Heap :=
  h.set p.posRef (posStep (h.getD p.posRef []) p.vel)

/-- The stream of `random.uniform(0,1)` draws, indexed by draw order. -/
abbrev Rng := ℕ → ℚ

/-- The external fitness evaluation (lines 138–142: `CNN(...)`,
`buid_model`, `train_model`, `evaluate`): given the contents of
`particle_l1.pos_i`, the contents of `particle_l2.pos_ij` and the index
of this evaluation call, returns the accuracy. -/
abbrev Oracle := List ℤ → List ℤ → ℕ → ℚ

/-- Threaded state of `level2_optimize`: the heap, the number of
`uniform` draws consumed so far, and the number of evaluator calls made
so far. -/
structure St2 where
  h : Heap
  ri : ℕ
  ei : ℕ
deriving DecidableEq

/-- Body of the inner loop of `level2_optimize` for one micro particle
(lines 136–148): `update_velocity` (consuming two `uniform` draws),
`update_position`, external fitness evaluation giving `F_ij`, then the
personal-best update (lines 143–145) with the global-best update nested
inside it (lines 146–148).  Both best updates re-bind the `pbest_ij` /
`gbest` names to the `pos_ij` list object. -/
def l2ParticleStep (w : ℚ) (rng : Rng) (ev : Oracle) (l1posRef : ℕ)
    (s : St2) (p : Particle_L2) : St2 × Particle_L2 :=
  let r1 := rng s.ri
  let r2 := rng (s.ri + 1)
  let pv := p.update_velocity w coeff_c1 coeff_c2 r1 r2 s.h
  let h2 := pv.update_position s.h
  let Fq : PyFloat := .val (ev (h2.getD l1posRef []) (h2.getD pv.posRef []) s.ei)
  let pe := { pv with F := Fq }
  let pb :=
    if pyLt pe.pbest_F pe.F then
      let pp := { pe with pbest_F := pe.F, pbestRef := pe.posRef }
      if pyLt pp.gbest_F pp.F then
        { pp with gbest_F := pp.F, gbestRef := pp.posRef }
      else pp
    else pe
  (⟨h2, s.ri + 2, s.ei + 1⟩, pb)

/-- Generic state-threading map over a list: processes the elements in
order, passing the threaded state left to right and returning the list
of updated elements (the Python `for` loop over a list of objects that
are mutated in place). -/
def mapState {σ α : Type} (f : σ → α → σ × α) : σ → List α → σ × List α
  | s, [] => (s, [])
  | s, a :: as =>
      let fa := f s a
      let rest := mapState f fa.1 as
      (rest.1, fa.2 :: rest.2)

/-- One generation of `level2_optimize` (the inner `for i, particle_l2`
loop, lines 135–148). -/
def l2Gen (w : ℚ) (rng : Rng) (ev : Oracle) (l1posRef : ℕ)
    (s : St2) (sw : List Particle_L2) : St2 × List Particle_L2 :=
  mapState (l2ParticleStep w rng ev l1posRef) s sw

/-- The `for t in range(max_iter_lvl2)` loop of `level2_optimize`
(line 134): `n` generations in order (the generation index is unused in
the body). -/
def l2Gens (w : ℚ) (rng : Rng) (ev : Oracle) (l1posRef : ℕ) :
    ℕ → St2 × List Particle_L2 → St2 × List Particle_L2
  | 0, x => x
  | n + 1, x =>
      let y := l2Gen w rng ev l1posRef x.1 x.2
      l2Gens w rng ev l1posRef n y

/-- `Hybrid_MPSO_CNN.level2_optimize` (lines 133–150): runs
`max_iter_lvl2` generations over `particle_l1.swarm_lvl2` and then
returns `(particle_l2.gbest, particle_l2.F_ij)` where `particle_l2` is
the leaked loop variable, i.e. the last micro particle of the swarm:
the reference held by its `gbest` name and its current fitness `F_ij`. -/
def level2_optimize (w : ℚ) (rng : Rng) (ev : Oracle)
    (s : St2) (p1 : Particle_L1) : St2 × Particle_L1 × (ℕ × PyFloat) :=
  let x := l2Gens w rng ev p1.posRef max_iter_lvl2 (s, p1.swarm2)
  let last := x.2.getLastD defaultP2
  (x.1, { p1 with swarm2 := x.2 }, (last.gbestRef, last.F))

/-- Threaded state of `level1_optimize`: the heap, the draw and
evaluation counters, and the latest binding of the local name
`particle_l2_gbest` (line 123), `none` before the first binding. -/
structure St1 where
  h : Heap
  ri : ℕ
  ei : ℕ
  lmg : Option ℕ
deriving DecidableEq

/-- Body of the outer loop of `level1_optimize` for one macro particle
(lines 122–129): runs `level2_optimize` on its micro swarm, binds
`particle_l2_gbest` and sets `particle_l1.F_i` to the returned pair
(line 123), then performs the personal-best update (lines 124–126) with
the global-best update nested inside (lines 127–129), both re-binding
`pbest_i` / `gbest` to the `pos_i` list object.  Note that the loop body
never calls `particle_l1.update_velocity` or
`particle_l1.update_position`. -/
def l1ParticleStep (w : ℚ) (rng : Rng) (ev : Oracle)
    (s : St1) (p : Particle_L1) : St1 × Particle_L1 :=
  let x := level2_optimize w rng ev ⟨s.h, s.ri, s.ei⟩ p
  let pe := { x.2.1 with F := x.2.2.2 }
  let pb :=
    if pyLt pe.pbest_F pe.F then
      let pp := { pe with pbest_F := pe.F, pbestRef := pe.posRef }
      if pyLt pp.gbest_F pp.F then
        { pp with gbest_F := pp.F, gbestRef := pp.posRef }
      else pp
    else pe
  (⟨x.1.h, x.1.ri, x.1.ei, some x.2.2.1⟩, pb)

/-- One outer generation of `level1_optimize` (lines 121–129), with the
inertia weight `wSeq t` standing for the float
`calculate_omega(t, max_iter_lvl1)` computed at line 121. -/
def l1Gen (wSeq : ℕ → ℚ) (rng : Rng) (ev : Oracle) (t : ℕ)
    (s : St1) (sw : List Particle_L1) : St1 × List Particle_L1 :=
  mapState (l1ParticleStep (wSeq t) rng ev) s sw

/-- The `for t in range(max_iter_lvl1)` loop of `level1_optimize`
(line 120): generations `0, 1, ..., n-1` in order. -/
def l1Gens (wSeq : ℕ → ℚ) (rng : Rng) (ev : Oracle) :
    ℕ → St1 × List Particle_L1 → St1 × List Particle_L1
  | 0, x => x
  | n + 1, x =>
      let y := l1Gens wSeq rng ev n x
      l1Gen wSeq rng ev n y.1 y.2

/-- `Hybrid_MPSO_CNN.level1_optimize` (lines 119–131): runs `tmax1`
outer generations (`tmax1 = max_iter_lvl1 = random.randint(5, 8)`,
line 90) and returns `(particle_l1.gbest, particle_l2_gbest,
particle_l1.F_i)` where `particle_l1` is the leaked loop variable, i.e.
the last macro particle of the swarm: the reference held by its `gbest`
name, the reference last bound to `particle_l2_gbest`, and its current
fitness `F_i`. -/
def level1_optimize (wSeq : ℕ → ℚ) (rng : Rng) (ev : Oracle) (tmax1 : ℕ)
    (h : Heap) (sw : List Particle_L1) :
    (St1 × List Particle_L1) × (ℕ × Option ℕ × PyFloat) :=
  let x := l1Gens wSeq rng ev tmax1 (⟨h, 0, 0, none⟩, sw)
  let last := x.2.getLastD defaultP1
  (x, (last.gbestRef, x.1.lmg, last.F))

/-- `Hybrid_MPSO_CNN.run` (lines 152–154): constructs the optimizer,
runs `level1_optimize`, and hands the caller the triple
`(lvl1_hp, lvl2_hp, fitness)`.  The heap references of the first two
components are dereferenced to the list contents the caller observes. -/
def run (ds : ℕ → L1Draw) (wSeq : ℕ → ℚ) (rng : Rng) (ev : Oracle) (tmax1 : ℕ) :
    List ℤ × Option (List ℤ) × PyFloat :=
  let ini := initOptimizer ds
  let x := level1_optimize wSeq rng ev tmax1 ini.1 ini.2
  (x.1.1.h.getD x.2.1 [], x.2.2.1.map (fun r => x.1.1.h.getD r []), x.2.2.2)

/-- `Hybrid_MPSO_CNN.calculate_omega` (lines 114–117), over ℝ:
`0.9` if `t < alpha * t_max`, else
`1 / (1 + e ** ((10*t - t_max) / t_max))`. -/
noncomputable def calculate_omega (t t_max : ℕ) (alpha : ℝ) : ℝ :=
  if (t : ℝ) < alpha * t_max then 0.9
  else 1 / (1 + Real.exp ((10 * (t : ℝ) - (t_max : ℝ)) / (t_max : ℝ)))

/-- Spec-side predicate (section 8, "Bounds invariant", and the claim
text): a micro position `[c_nf, c_fs, c_pp, c_ss, p_fs, p_ss, p_pp, op]`
has every field within its `search_space` `[min, max]` range, odd-size
fields (`c_fs`, `p_fs`) odd, and the cross-field constraints
`c_ss ≤ c_fs` and `p_pp ≤ p_fs`. -/
def boundsOkL2 (pos : List ℤ) : Prop :=
  pos.length = 8 ∧
  (search_space .c_nf).1 ≤ pos.getD 0 0 ∧ pos.getD 0 0 ≤ (search_space .c_nf).2 ∧
  (search_space .c_fs).1 ≤ pos.getD 1 0 ∧ pos.getD 1 0 ≤ (search_space .c_fs).2 ∧
  pos.getD 1 0 % 2 = 1 ∧
  (search_space .c_pp).1 ≤ pos.getD 2 0 ∧ pos.getD 2 0 ≤ (search_space .c_pp).2 ∧
  (search_space .c_ss).1 ≤ pos.getD 3 0 ∧ pos.getD 3 0 ≤ (search_space .c_ss).2 ∧
  pos.getD 3 0 ≤ pos.getD 1 0 ∧
  (search_space .p_fs).1 ≤ pos.getD 4 0 ∧ pos.getD 4 0 ≤ (search_space .p_fs).2 ∧
  pos.getD 4 0 % 2 = 1 ∧
  (search_space .p_ss).1 ≤ pos.getD 5 0 ∧ pos.getD 5 0 ≤ (search_space .p_ss).2 ∧
  (search_space .p_pp).1 ≤ pos.getD 6 0 ∧ pos.getD 6 0 ≤ (search_space .p_pp).2 ∧
  pos.getD 6 0 ≤ pos.getD 4 0 ∧
  (search_space .op).1 ≤ pos.getD 7 0 ∧ pos.getD 7 0 ≤ (search_space .op).2

instance (pos : List ℤ) : Decidable (boundsOkL2 pos) := by
  unfold boundsOkL2; infer_instance

/-- Spec-side predicate for a macro position `[nC, nP, nF]`: fields
within range and the cross-field constraints `nP ≤ nC`, `nF ≤ nC`. -/
def boundsOkL1 (pos : List ℤ) : Prop :=
  pos.length = 3 ∧
  (search_space .nC).1 ≤ pos.getD 0 0 ∧ pos.getD 0 0 ≤ (search_space .nC).2 ∧
  (search_space .nP).1 ≤ pos.getD 1 0 ∧ pos.getD 1 0 ≤ (search_space .nP).2 ∧
  (search_space .nF).1 ≤ pos.getD 2 0 ∧ pos.getD 2 0 ≤ (search_space .nF).2 ∧
  pos.getD 1 0 ≤ pos.getD 0 0 ∧ pos.getD 2 0 ≤ pos.getD 0 0

instance (pos : List ℤ) : Decidable (boundsOkL1 pos) := by
  unfold boundsOkL1; infer_instance

/-- Concrete micro draw used in the counterexample runs: every value is
inside the range the source passes to `randint` / `randrange`
(`L2Draw.valid` holds); in particular `p_pp = 7` is drawn from
`randint(0, p_fs) = randint(0, 13)` (line 54). -/
def cDrawL2 : L2Draw := ⟨1, 1, 0, 1, 13, 1, 7, 1⟩

/-- Concrete macro draws used in the counterexample runs: macro particle
`j` draws `nC = 1` for even `j` and `nC = 2` for odd `j` (so positions
of adjacent particles differ), `nP = nF = 1`, and every micro particle
uses `cDrawL2`. -/
def cDrawL1 (j : ℕ) : L1Draw := ⟨((j % 2 : ℕ) : ℤ) + 1, 1, 1, fun _ => cDrawL2⟩

/-- Concrete `uniform(0,1)` stream: every draw is `0` (a value
`random.uniform(0,1)` can return). -/
def cRng : Rng := fun _ => 0

/-- Concrete inertia-weight values for the counterexample runs (the
float `calculate_omega` produces `0.9` for early generations). -/
def cW : ℕ → ℚ := fun _ => 9 / 10

/-- Concrete fitness oracle: the very first evaluator call reports
accuracy `1`, every later call reports accuracy `0`. -/
def cEv1 : Oracle := fun _ _ i => if i = 0 then 1 else 0

/-- Concrete fitness oracle that always reports accuracy `0`. -/
def cEv0 : Oracle := fun _ _ _ => 0

/-- The initial optimizer state built from the concrete draws. -/
def cIni : Heap × List Particle_L1 := initOptimizer cDrawL1

/-- The optimizer state after the 5 outer generations of a run with
`max_iter_lvl1 = 5` (a value `randint(5, 8)` can return), on the
concrete draws, streams and oracle. -/
def cRun : St1 × List Particle_L1 :=
  l1Gens cW cRng cEv1 5 (⟨cIni.1, 0, 0, none⟩, cIni.2)

/-- Contents of the `pos_i` list object of macro particle `j` in an
optimizer state. -/
def macroPosAt (x : St1 × List Particle_L1) (j : ℕ) : List ℤ :=
  x.1.h.getD ((x.2.getD j defaultP1).posRef) []

/-- Contents of the list object the `gbest` name of macro particle `j`
refers to, i.e. the global best that particle observes. -/
def macroGbestAt (x : St1 × List Particle_L1) (j : ℕ) : List ℤ :=
  x.1.h.getD ((x.2.getD j defaultP1).gbestRef) []

/-- Micro particle `k` of macro particle `j` in an optimizer state. -/
def microAt (x : St1 × List Particle_L1) (j k : ℕ) : Particle_L2 :=
  (x.2.getD j defaultP1).swarm2.getD k defaultP2

/-- A single macro particle constructed alone on an empty heap (used to
examine `level2_optimize` in isolation). -/
def c2Ini : Heap × Particle_L1 := Particle_L1.init [] (cDrawL1 0)

/-- One full `level2_optimize` call on that macro particle, with
`w = 9/10` and the first-call-wins oracle. -/
def c2Out : St2 × Particle_L1 × (ℕ × PyFloat) :=
  level2_optimize (9 / 10) cRng cEv1 ⟨c2Ini.1, 0, 0⟩ c2Ini.2

/-- A single micro particle constructed alone on an empty heap. -/
def c3Ini : Heap × Particle_L2 := Particle_L2.init [] cDrawL2

/-- One inner-loop body execution (velocity update, position update,
fitness evaluation, best updates) on that micro particle. -/
def c3Out : St2 × Particle_L2 :=
  l2ParticleStep (9 / 10) cRng cEv0 0 ⟨c3Ini.1, 0, 0⟩ c3Ini.2

/-- The concrete run's state before the first outer generation. -/
def cInitState : St1 × List Particle_L1 := ⟨⟨cIni.1, 0, 0, none⟩, cIni.2⟩

/-- Ordering of micro-particle best fitnesses: personal-best and
global-best fitness of `p` are at most those of `q`. -/
def bestLe2 (p q : Particle_L2) : Prop :=
  pyLe p.pbest_F q.pbest_F = true ∧ pyLe p.gbest_F q.gbest_F = true

/-- Ordering of macro-particle best fitnesses, including all owned micro
particles (indexed totally via `List.getD`). -/
def bestLe (p q : Particle_L1) : Prop :=
  pyLe p.pbest_F q.pbest_F = true ∧ pyLe p.gbest_F q.gbest_F = true ∧
  ∀ k, bestLe2 (p.swarm2.getD k defaultP2) (q.swarm2.getD k defaultP2)

/-- Aliasing invariant for a micro particle: the `pbest_ij` and `gbest`
names refer to the same list object as `pos_ij`. -/
def aliasOk2 (p : Particle_L2) : Prop :=
  p.pbestRef = p.posRef ∧ p.gbestRef = p.posRef

/-- Aliasing invariant for a macro particle: `pbest_i` and `gbest` refer
to the `pos_i` object, and every owned micro particle satisfies
`aliasOk2`. -/
def aliasOk1 (p : Particle_L1) : Prop :=
  p.pbestRef = p.posRef ∧ p.gbestRef = p.posRef ∧
  ∀ k, aliasOk2 (p.swarm2.getD k defaultP2)

theorem pyLe_refl (a : PyFloat) : pyLe a a = true := by
  cases a <;> simp [pyLe]

theorem pyLt_pyLe {a b : PyFloat} (h : pyLt a b = true) : pyLe a b = true := by
  cases a <;> cases b <;> simp_all [pyLt, pyLe]
  linarith

theorem pyLe_trans {a b c : PyFloat} (h1 : pyLe a b = true) (h2 : pyLe b c = true) :
    pyLe a c = true := by
  cases a <;> cases b <;> cases c <;> simp_all [pyLe]
  linarith

theorem mapState_length {σ α : Type} (f : σ → α → σ × α) :
    ∀ (as : List α) (s : σ), ((mapState f s as).2).length = as.length := by
  intro as
  induction as with
  | nil => intro s; rfl
  | cons a as ih => intro s; simp [mapState, ih]

theorem mapState_getD_rel {σ α : Type} (f : σ → α → σ × α) (R : α → α → Prop)
    (hf : ∀ s a, R a (f s a).2) (d : α) (hd : R d d) :
    ∀ (as : List α) (s : σ) (j : ℕ),
      R (as.getD j d) ((mapState f s as).2.getD j d) := by
  intro as
  induction as with
  | nil => intro s j; simpa [mapState] using hd
  | cons a as ih =>
      intro s j
      cases j with
      | zero => simpa [mapState] using hf s a
      | succ j => simpa [mapState] using ih (f s a).1 j

section ConcreteRuns

set_option maxRecDepth 1000000

attribute [local semireducible] Rat.add Rat.mul Rat.sub Rat.inv Rat.ofScientific

/-- C1: refuted on the code.  In a complete run (`max_iter_lvl1 = 5`,
draws `cDrawL1`, first evaluator call reporting accuracy 1 and every
later call 0), `run` returns fitness `0` — the last macro particle's
current fitness `F_i` from the final generation — although the maximum
fitness recorded across the run is `1` (still stored as the personal
best of micro particle (0,0)); so the returned fitness is not the
global-best fitness of the run. -/
theorem c1_run_returns_last_fitness_not_run_maximum :
    (run cDrawL1 cW cRng cEv1 5).2.2 = PyFloat.val 0 ∧
    (microAt cRun 0 0).pbest_F = PyFloat.val 1 ∧
    pyLt (PyFloat.val 0) (PyFloat.val 1) = true := by decide

/-- C2: refuted on the code.  `level2_optimize` on a macro particle with
5 micro particles (first evaluator call reporting accuracy 1, every
later call 0) returns fitness `0` — the last micro particle's current
fitness `F_ij` after the final inner generation — although the maximum
fitness observed over all micro particles and inner generations is `1`
(stored as micro particle 0's personal best); the last particle's
`gbest_F` is still `float('inf')`, so no best fitness was ever recorded
in the global-best slot that the returned position comes from. -/
theorem c2_level2_returns_last_fitness_not_swarm_best :
    c2Out.2.2.2 = PyFloat.val 0 ∧
    (c2Out.2.1.swarm2.getD 0 defaultP2).pbest_F = PyFloat.val 1 ∧
    (c2Out.2.1.swarm2.getD 4 defaultP2).gbest_F = PyFloat.pinf ∧
    pyLt (PyFloat.val 0) (PyFloat.val 1) = true := by decide

/-- C3: refuted on the code.  A micro particle constructed from draws
the source's `randint`/`randrange` calls can produce (`cDrawL2`, with
`p_pp = 7` drawn from `randint(0, p_fs) = randint(0, 13)`), after a
velocity-driven position update (`update_velocity` + `update_position`,
whose clamp is commented out in the source) and before the fitness
evaluation of that position, violates the bounds invariant: its
`p_pp` field is `7`, outside the SearchSpace range `[0, 1]`. -/
theorem c3_bounds_invariant_fails_after_position_update :
    L2Draw.valid cDrawL2 ∧
    c3Out.1.h.getD c3Out.2.posRef [] = [1, 1, 0, 1, 13, 1, 7, 1] ∧
    ¬ boundsOkL2 (c3Out.1.h.getD c3Out.2.posRef []) := by decide

/-- C4: refuted on the code.  Each particle holds its own `gbest`
attribute (bound to its own `pos` list), so two macro particles of the
same swarm observe different global-best values, both at construction
and after a complete 5-generation run. -/
theorem c4_particles_observe_different_gbest :
    macroGbestAt cInitState 0 = [1, 1, 1] ∧
    macroGbestAt cInitState 1 = [2, 1, 1] ∧
    macroGbestAt cInitState 0 ≠ macroGbestAt cInitState 1 ∧
    macroGbestAt cRun 0 ≠ macroGbestAt cRun 1 := by decide

/-- C5: refuted on the code.  At construction the current fitness and
the personal-best fitness are `-inf` as the claim states, but the
global-best fitness is initialized to `float('inf')` — positive
infinity — at both levels (lines 25 and 65), not negative infinity. -/
theorem c5_gbest_fitness_initialized_to_plus_infinity :
    (Particle_L2.init [] cDrawL2).2.pbest_F = PyFloat.ninf ∧
    (Particle_L2.init [] cDrawL2).2.F = PyFloat.ninf ∧
    (Particle_L2.init [] cDrawL2).2.gbest_F = PyFloat.pinf ∧
    (Particle_L1.init [] (cDrawL1 0)).2.pbest_F = PyFloat.ninf ∧
    (Particle_L1.init [] (cDrawL1 0)).2.F = PyFloat.ninf ∧
    (Particle_L1.init [] (cDrawL1 0)).2.gbest_F = PyFloat.pinf ∧
    PyFloat.pinf ≠ PyFloat.ninf := by decide

/-- C6: refuted on the code.  `level1_optimize` never invokes the macro
particles' `update_velocity` / `update_position`: over a complete
5-generation run every macro particle's position is identical to its
initial position, so macro positions never change across outer
generations. -/
theorem c6_macro_positions_never_change :
    macroPosAt cInitState 0 = [1, 1, 1] ∧
    macroPosAt cInitState 1 = [2, 1, 1] ∧
    macroPosAt cRun 0 = macroPosAt cInitState 0 ∧
    macroPosAt cRun 1 = macroPosAt cInitState 1 ∧
    macroPosAt cRun 2 = macroPosAt cInitState 2 ∧
    macroPosAt cRun 3 = macroPosAt cInitState 3 ∧
    macroPosAt cRun 4 = macroPosAt cInitState 4 := by decide

/-- C8: refuted on the code.  The draw `cDrawL2` is possible for
`Particle_L2.__init__` (it satisfies every `randint`/`randrange` range
the source uses, in particular `p_pp = 7 ∈ [0, p_fs] = [0, 13]` from
line 54), yet the constructed particle's `p_pp` position entry is `7`,
outside the categorical range `{0, 1}` of the search-space table.  The
remaining constructed-particle invariants of the claim do hold. -/
theorem c8_p_pp_outside_categorical_range :
    L2Draw.valid cDrawL2 ∧
    ((Particle_L2.init [] cDrawL2).1.getD (Particle_L2.init [] cDrawL2).2.posRef
        []).getD 6 0 = 7 ∧
    ¬ ((Particle_L2.init [] cDrawL2).1.getD (Particle_L2.init [] cDrawL2).2.posRef
        []).getD 6 0 ≤ (search_space .p_pp).2 := by decide

end ConcreteRuns

/-- C7, counterexample: at `t = t_max = 5` (with `alpha = 0.2`),
`calculate_omega` does not return `1 / (1 + e)`: the else-branch
exponent `(10*t - t_max)/t_max` equals `9` at `t = t_max`, so the value
is `1 / (1 + e^9)` ≈ 0.000123, not `1 / (1 + e)` ≈ 0.2689. -/
theorem c7_omega_at_tmax_not_one_over_one_plus_e :
    calculate_omega 5 5 0.2 ≠ 1 / (1 + Real.exp 1) := by
  have hcond : ¬(((5 : ℕ) : ℝ) < 0.2 * ((5 : ℕ) : ℝ)) := by norm_num
  have harg : (10 * ((5 : ℕ) : ℝ) - ((5 : ℕ) : ℝ)) / ((5 : ℕ) : ℝ) = 9 := by norm_num
  unfold calculate_omega
  rw [if_neg hcond, harg]
  have h1 : Real.exp 1 < Real.exp 9 := Real.exp_lt_exp.mpr (by norm_num)
  have h2 : (0 : ℝ) < 1 + Real.exp 1 := by positivity
  have h3 : 1 / (1 + Real.exp 9) < 1 / (1 + Real.exp 1) :=
    one_div_lt_one_div_of_lt h2 (by linarith)
  exact ne_of_lt h3

/-- C7, amended: with `alpha = 0.2`, `calculate_omega t t_max` returns
exactly `0.9` whenever `t < 0.2 * t_max`, and at `t = t_max` (for
positive `t_max`) it returns `1 / (1 + e^9)` — not `1 / (1 + e)` as the
claim stated. -/
theorem c7_omega_amended (t t_max : ℕ) :
    ((t : ℝ) < 0.2 * (t_max : ℝ) → calculate_omega t t_max 0.2 = 0.9) ∧
    (0 < t_max → calculate_omega t_max t_max 0.2 = 1 / (1 + Real.exp 9)) := by
  constructor
  · intro h
    unfold calculate_omega
    rw [if_pos h]
  · intro h
    have h0 : (0 : ℝ) < (t_max : ℝ) := by exact_mod_cast h
    have hcond : ¬((t_max : ℝ) < 0.2 * (t_max : ℝ)) := by nlinarith
    have harg : (10 * (t_max : ℝ) - (t_max : ℝ)) / (t_max : ℝ) = 9 := by
      field_simp
      ring
    unfold calculate_omega
    rw [if_neg hcond, harg]

/-- Witness for `c7_omega_amended` at `t = 0, t_max = 5` and
`t = t_max = 5`. -/
theorem c7_omega_amended_witness :
    calculate_omega 0 5 0.2 = 0.9 ∧ calculate_omega 5 5 0.2 = 1 / (1 + Real.exp 9) :=
  ⟨(c7_omega_amended 0 5).1 (by norm_num), (c7_omega_amended 5 5).2 (by norm_num)⟩

theorem bestLe2_refl (p : Particle_L2) : bestLe2 p p :=
  ⟨pyLe_refl _, pyLe_refl _⟩

theorem bestLe2_trans {p q r : Particle_L2} (h1 : bestLe2 p q) (h2 : bestLe2 q r) :
    bestLe2 p r :=
  ⟨pyLe_trans h1.1 h2.1, pyLe_trans h1.2 h2.2⟩

theorem bestLe_refl (p : Particle_L1) : bestLe p p :=
  ⟨pyLe_refl _, pyLe_refl _, fun _ => bestLe2_refl _⟩

theorem bestLe_trans {p q r : Particle_L1} (h1 : bestLe p q) (h2 : bestLe q r) :
    bestLe p r :=
  ⟨pyLe_trans h1.1 h2.1, pyLe_trans h1.2.1 h2.2.1,
   fun k => bestLe2_trans (h1.2.2 k) (h2.2.2 k)⟩

theorem l2ParticleStep_bestLe2 (w : ℚ) (rng : Rng) (ev : Oracle) (ref : ℕ)
    (s : St2) (p : Particle_L2) : bestLe2 p (l2ParticleStep w rng ev ref s p).2 := by
  unfold bestLe2 l2ParticleStep Particle_L2.update_velocity
  dsimp only
  split
  next h1 =>
    split
    next h2 => exact ⟨pyLt_pyLe h1, pyLt_pyLe h2⟩
    next => exact ⟨pyLt_pyLe h1, pyLe_refl _⟩
  next => exact ⟨pyLe_refl _, pyLe_refl _⟩

theorem l2Gens_bestLe2 (w : ℚ) (rng : Rng) (ev : Oracle) (ref : ℕ) :
    ∀ (n : ℕ) (x : St2 × List Particle_L2) (k : ℕ),
      bestLe2 (x.2.getD k defaultP2) ((l2Gens w rng ev ref n x).2.getD k defaultP2) := by
  intro n
  induction n with
  | zero => intro x k; exact bestLe2_refl _
  | succ n ih =>
      intro x k
      exact bestLe2_trans
        (mapState_getD_rel _ bestLe2 (fun s a => l2ParticleStep_bestLe2 w rng ev ref s a)
          defaultP2 (bestLe2_refl _) x.2 x.1 k)
        (ih _ k)

theorem l1ParticleStep_bestLe (w : ℚ) (rng : Rng) (ev : Oracle)
    (s : St1) (p : Particle_L1) : bestLe p (l1ParticleStep w rng ev s p).2 := by
  have hsw : ∀ k, bestLe2 (p.swarm2.getD k defaultP2)
      ((l2Gens w rng ev p.posRef max_iter_lvl2 (⟨s.h, s.ri, s.ei⟩, p.swarm2)).2.getD k
        defaultP2) :=
    fun k => l2Gens_bestLe2 w rng ev p.posRef max_iter_lvl2 (⟨s.h, s.ri, s.ei⟩, p.swarm2) k
  unfold bestLe l1ParticleStep level2_optimize
  dsimp only
  split
  next h1 =>
    split
    next h2 => exact ⟨pyLt_pyLe h1, pyLt_pyLe h2, hsw⟩
    next => exact ⟨pyLt_pyLe h1, pyLe_refl _, hsw⟩
  next => exact ⟨pyLe_refl _, pyLe_refl _, hsw⟩

theorem l1Gen_bestLe (wSeq : ℕ → ℚ) (rng : Rng) (ev : Oracle) (t : ℕ)
    (s : St1) (sw : List Particle_L1) (j : ℕ) :
    bestLe (sw.getD j defaultP1) ((l1Gen wSeq rng ev t s sw).2.getD j defaultP1) :=
  mapState_getD_rel _ bestLe (fun s p => l1ParticleStep_bestLe (wSeq t) rng ev s p)
    defaultP1 (bestLe_refl _) sw s j

/-- C9: confirmed.  For any start state, any inputs and any particle
index (at either level), the stored personal-best fitness and the stored
global-best fitness after outer generation `t + 1` are at least their
values after generation `t`: personal and global bests are non-decreasing
across the run, at the macro level and, for every micro particle, at the
micro level.  (The indices are total via `List.getD`.) -/
theorem c9_best_fitness_monotone (wSeq : ℕ → ℚ) (rng : Rng) (ev : Oracle)
    (x : St1 × List Particle_L1) (t j k : ℕ) :
    pyLe ((l1Gens wSeq rng ev t x).2.getD j defaultP1).pbest_F
        ((l1Gens wSeq rng ev (t + 1) x).2.getD j defaultP1).pbest_F = true ∧
    pyLe ((l1Gens wSeq rng ev t x).2.getD j defaultP1).gbest_F
        ((l1Gens wSeq rng ev (t + 1) x).2.getD j defaultP1).gbest_F = true ∧
    pyLe (((l1Gens wSeq rng ev t x).2.getD j defaultP1).swarm2.getD k defaultP2).pbest_F
        (((l1Gens wSeq rng ev (t + 1) x).2.getD j defaultP1).swarm2.getD k
          defaultP2).pbest_F = true ∧
    pyLe (((l1Gens wSeq rng ev t x).2.getD j defaultP1).swarm2.getD k defaultP2).gbest_F
        (((l1Gens wSeq rng ev (t + 1) x).2.getD j defaultP1).swarm2.getD k
          defaultP2).gbest_F = true := by
  have hgen : l1Gens wSeq rng ev (t + 1) x =
      l1Gen wSeq rng ev t (l1Gens wSeq rng ev t x).1 (l1Gens wSeq rng ev t x).2 := rfl
  have hstep : bestLe ((l1Gens wSeq rng ev t x).2.getD j defaultP1)
      ((l1Gens wSeq rng ev (t + 1) x).2.getD j defaultP1) := by
    rw [hgen]
    exact l1Gen_bestLe wSeq rng ev t _ _ j
  exact ⟨hstep.1, hstep.2.1, (hstep.2.2 k).1, (hstep.2.2 k).2⟩

theorem aliasOk2_defaultP2 : aliasOk2 defaultP2 := ⟨rfl, rfl⟩

theorem aliasOk1_defaultP1 : aliasOk1 defaultP1 :=
  ⟨rfl, rfl, fun k => by cases k <;> exact ⟨rfl, rfl⟩⟩

theorem buildSwarm2_aliasOk2 (ds : ℕ → L2Draw) :
    ∀ (n : ℕ) (h : Heap) (i k : ℕ),
      aliasOk2 ((buildSwarm2 ds h i n).2.getD k defaultP2) := by
  intro n
  induction n with
  | zero =>
      intro h i k
      cases k <;> exact aliasOk2_defaultP2
  | succ n ih =>
      intro h i k
      cases k with
      | zero => exact ⟨rfl, rfl⟩
      | succ k => exact ih _ _ k

theorem l1init_aliasOk1 (h : Heap) (d : L1Draw) : aliasOk1 (Particle_L1.init h d).2 :=
  ⟨rfl, rfl, fun k => buildSwarm2_aliasOk2 d.micro _ _ _ k⟩

theorem buildSwarm1_aliasOk1 (ds : ℕ → L1Draw) :
    ∀ (n : ℕ) (h : Heap) (i j : ℕ),
      aliasOk1 ((buildSwarm1 ds h i n).2.getD j defaultP1) := by
  intro n
  induction n with
  | zero =>
      intro h i j
      cases j <;> exact aliasOk1_defaultP1
  | succ n ih =>
      intro h i j
      cases j with
      | zero => exact l1init_aliasOk1 _ _
      | succ j => exact ih _ _ j

theorem initOptimizer_aliasOk1 (ds : ℕ → L1Draw) (j : ℕ) :
    aliasOk1 ((initOptimizer ds).2.getD j defaultP1) :=
  buildSwarm1_aliasOk1 ds swarm_size_lvl1 [] 0 j

theorem l2ParticleStep_aliasOk2 (w : ℚ) (rng : Rng) (ev : Oracle) (ref : ℕ)
    (s : St2) (p : Particle_L2) (hp : aliasOk2 p) :
    aliasOk2 (l2ParticleStep w rng ev ref s p).2 := by
  unfold aliasOk2 l2ParticleStep Particle_L2.update_velocity
  dsimp only
  split
  next =>
    split
    next => exact ⟨rfl, rfl⟩
    next => exact ⟨rfl, hp.2⟩
  next => exact hp

theorem l2Gens_aliasOk2 (w : ℚ) (rng : Rng) (ev : Oracle) (ref : ℕ) :
    ∀ (n : ℕ) (x : St2 × List Particle_L2) (k : ℕ),
      aliasOk2 (x.2.getD k defaultP2) →
      aliasOk2 ((l2Gens w rng ev ref n x).2.getD k defaultP2) := by
  intro n
  induction n with
  | zero => intro x k hk; exact hk
  | succ n ih =>
      intro x k hk
      exact ih _ k
        (mapState_getD_rel _ (fun a b => aliasOk2 a → aliasOk2 b)
          (fun s a ha => l2ParticleStep_aliasOk2 w rng ev ref s a ha)
          defaultP2 id x.2 x.1 k hk)

theorem l1ParticleStep_aliasOk1 (w : ℚ) (rng : Rng) (ev : Oracle)
    (s : St1) (p : Particle_L1) (hp : aliasOk1 p) :
    aliasOk1 (l1ParticleStep w rng ev s p).2 := by
  have hsw : ∀ k, aliasOk2
      ((l2Gens w rng ev p.posRef max_iter_lvl2 (⟨s.h, s.ri, s.ei⟩, p.swarm2)).2.getD k
        defaultP2) :=
    fun k => l2Gens_aliasOk2 w rng ev p.posRef max_iter_lvl2
      (⟨s.h, s.ri, s.ei⟩, p.swarm2) k (hp.2.2 k)
  unfold aliasOk1 l1ParticleStep level2_optimize
  dsimp only
  split
  next =>
    split
    next => exact ⟨rfl, rfl, hsw⟩
    next => exact ⟨rfl, hp.2.1, hsw⟩
  next => exact ⟨hp.1, hp.2.1, hsw⟩

theorem l1Gens_aliasOk1 (wSeq : ℕ → ℚ) (rng : Rng) (ev : Oracle) :
    ∀ (t : ℕ) (x : St1 × List Particle_L1) (j : ℕ),
      aliasOk1 (x.2.getD j defaultP1) →
      aliasOk1 ((l1Gens wSeq rng ev t x).2.getD j defaultP1) := by
  intro t
  induction t with
  | zero => intro x j hj; exact hj
  | succ t ih =>
      intro x j hj
      have hgen : l1Gens wSeq rng ev (t + 1) x =
          l1Gen wSeq rng ev t (l1Gens wSeq rng ev t x).1 (l1Gens wSeq rng ev t x).2 := rfl
      rw [hgen]
      exact mapState_getD_rel _ (fun a b => aliasOk1 a → aliasOk1 b)
        (fun s a ha => l1ParticleStep_aliasOk1 (wSeq t) rng ev s a ha)
        defaultP1 id (l1Gens wSeq rng ev t x).2 (l1Gens wSeq rng ev t x).1 j (ih x j hj)

/-- C10: confirmed.  For every run (any draws, inertia weights, random
stream, oracle), after any number of outer generations, the list object
the `pbest` name of any particle (at either level) refers to is the
particle's own `pos` object, so the stored personal-best position is
element-wise equal to the particle's current position; no particle ever
retains a past best position distinct from its current position. -/
theorem c10_pbest_equals_current_position (ds : ℕ → L1Draw) (wSeq : ℕ → ℚ)
    (rng : Rng) (ev : Oracle) (t j k : ℕ) :
    (l1Gens wSeq rng ev t (⟨(initOptimizer ds).1, 0, 0, none⟩, (initOptimizer ds).2)).1.h.getD
        (((l1Gens wSeq rng ev t
          (⟨(initOptimizer ds).1, 0, 0, none⟩, (initOptimizer ds).2)).2.getD j
            defaultP1).pbestRef) [] =
      (l1Gens wSeq rng ev t (⟨(initOptimizer ds).1, 0, 0, none⟩, (initOptimizer ds).2)).1.h.getD
        (((l1Gens wSeq rng ev t
          (⟨(initOptimizer ds).1, 0, 0, none⟩, (initOptimizer ds).2)).2.getD j
            defaultP1).posRef) [] ∧
    (l1Gens wSeq rng ev t (⟨(initOptimizer ds).1, 0, 0, none⟩, (initOptimizer ds).2)).1.h.getD
        ((((l1Gens wSeq rng ev t
          (⟨(initOptimizer ds).1, 0, 0, none⟩, (initOptimizer ds).2)).2.getD j
            defaultP1).swarm2.getD k defaultP2).pbestRef) [] =
      (l1Gens wSeq rng ev t (⟨(initOptimizer ds).1, 0, 0, none⟩, (initOptimizer ds).2)).1.h.getD
        ((((l1Gens wSeq rng ev t
          (⟨(initOptimizer ds).1, 0, 0, none⟩, (initOptimizer ds).2)).2.getD j
            defaultP1).swarm2.getD k defaultP2).posRef) [] := by
  have halias : aliasOk1
      ((l1Gens wSeq rng ev t
        (⟨(initOptimizer ds).1, 0, 0, none⟩, (initOptimizer ds).2)).2.getD j defaultP1) :=
    l1Gens_aliasOk1 wSeq rng ev t _ j (initOptimizer_aliasOk1 ds j)
  exact ⟨by rw [halias.1], by rw [(halias.2.2 k).1]⟩

end MPSO
